import Mathlib

/-!
Verification of the frame-rejuvenation production console (src/unnamed/part_000
and src/services/geminiService.ts).  JS strings are modelled as lists of
characters; JS runtime helpers (split, trim, indexOf, substring, truthiness of
strings, Array.prototype.sort) are modelled explicitly next to the code that
uses them.
-/

namespace BS14

/-- JS strings, modelled as lists of characters (code points). -/
abbrev Str := List Char

/-- `TextFile` from src/unnamed/part_000:12 — `{ name: string; content: string }`. -/
structure TextFile where
  name : Str
  content : Str
  deriving DecidableEq, Repr

/-- `SourceImage` from src/unnamed/part_000:11 — `{ fileName; base64; mimeType }`. -/
structure SourceImage where
  fileName : Str
  base64 : Str
  mimeType : Str
  deriving DecidableEq, Repr

/-- JS `s.split('\n')`: cut at every newline; yields `[""]` on the empty string. -/
def splitOnNl : Str → List Str
  | [] => [[]]
  | c :: rest =>
    let r := splitOnNl rest
    if c = '\n' then [] :: r
    else
      match r with
      | h :: t => (c :: h) :: t
      | [] => [[c]]

/-- JS `lines.join('\n')`. -/
def joinNl (lines : List Str) : Str := List.intercalate ['\n'] lines

/-- `name.split('.').shift() || ""` (src/unnamed/part_000:128 and 197): the
segment of the name before the first `.` (the whole name when it has no dot,
empty when the name starts with a dot or is empty). -/
def jsBaseId (name : Str) : Str := name.takeWhile (fun c => c ≠ '.')

/-- The `find` predicate of src/unnamed/part_000:129/198:
`t.name.startsWith(base) && t.name.endsWith('.txt')`. -/
def matchesFrameText (base : Str) (t : TextFile) : Bool :=
  base.isPrefixOf t.name && (".txt".toList).isSuffixOf t.name

/-- `tempTexts.find(t => t.name.startsWith(base) && t.name.endsWith('.txt'))`
with `base` derived from the frame name (src/unnamed/part_000:128-129). -/
def findFrameText (texts : List TextFile) (frameName : Str) : Option TextFile :=
  texts.find? (matchesFrameText (jsBaseId frameName))

/-- The same lookup as performed per frame in the production run
(src/unnamed/part_000:197-198). -/
def perFrameTextLookup (texts : List TextFile) (img : SourceImage) : Option TextFile :=
  texts.find? (matchesFrameText (jsBaseId img.fileName))

/-- The contribution of one frame to `hs4000Lines`
(src/unnamed/part_000:127-135): the line at index 3 of the matching text asset
when that asset exists and has at least 4 lines, nothing otherwise. -/
def frameLine (texts : List TextFile) (frameName : Str) : Option Str :=
  match findFrameText texts frameName with
  | some t =>
    let lines := splitOnNl t.content
    if 4 ≤ lines.length then some (lines.getD 3 []) else none
  | none => none

/-- JS `Array.prototype.sort()` on strings with the default comparator: the
stable sorted permutation under code-unit lexicographic order, realised here by
insertion sort over the lexicographic order on `List Char`
(src/unnamed/part_000:125 `Object.keys(tempProcessed).sort()`). -/
def jsSortStrings (keys : List Str) : List Str :=
  List.insertionSort (· ≤ ·) keys

/-- `hs4000Lines` (src/unnamed/part_000:126-136): one line per sorted frame key
that has a matching text asset with at least 4 lines. -/
def hs4000Lines (frameKeys : List Str) (texts : List TextFile) : List Str :=
  (jsSortStrings frameKeys).filterMap (frameLine texts)

/-- `hs4000Content = hs4000Lines.join('\n')` (src/unnamed/part_000:137). -/
def assembleScript (frameKeys : List Str) (texts : List TextFile) : Str :=
  joinNl (hs4000Lines frameKeys texts)

/-- `Object.values(processedImages).sort((a, b) =>
a.fileName.localeCompare(b.fileName))` (src/unnamed/part_000:187).
`localeCompare` is a host collation function and is taken as a parameter;
JS sort keeps `a` before `b` when the comparator is ≤ 0. -/
def productionOrder (localeCompare : Str → Str → Int) (imgs : List SourceImage) :
    List SourceImage :=
  List.insertionSort (fun a b => localeCompare a.fileName b.fileName ≤ 0) imgs

/-- The character class removed by JS `String.prototype.trim`. -/
def jsWhitespace (c : Char) : Bool :=
  c = ' ' || c = '\t' || c = '\n' || c = '\r' || c = '\x0b' || c = '\x0c' ||
  c = '\xa0' || c = '\u1680' || ('\u2000' ≤ c && c ≤ '\u200a') ||
  c = '\u2028' || c = '\u2029' || c = '\u202f' || c = '\u205f' ||
  c = '\u3000' || c = '\ufeff'

/-- JS `s.trim()`. -/
def jsTrim (s : Str) : Str :=
  ((s.dropWhile jsWhitespace).reverse.dropWhile jsWhitespace).reverse

/-- The UI stage machine of src/unnamed/part_000:17. -/
inductive Stage where
  | IDLE | ANALYZING | PROCESSING | COMPLETE
  deriving DecidableEq, Repr

/-- The first externally visible action taken by `runAnalysis`
(src/unnamed/part_000:165-181): either halt with an error (resetting the
stage), or issue the character-bible AI call. -/
inductive AnalysisStep where
  | halt (errorMessage : Str) (nextStage : Stage)
  | callCreateBible (avatarNames : List Str) (script : Str)
  deriving DecidableEq, Repr

/-- The error message set at src/unnamed/part_000:167. -/
def emptyScriptError : Str :=
  "GENERATED SCRIPT IS EMPTY. CANNOT CREATE BIBLE. PROCESS HALTED.".toList

/-- `runAnalysis` (src/unnamed/part_000:165-181) up to its first AI call:
`if (!fullScript || fullScript.content.trim() === '')` halts with the error
and stage `IDLE`; otherwise it calls `createCharacterBible(Object.keys(avatars),
fullScript.content)`. -/
def runAnalysis (fullScript : Option TextFile) (avatarNames : List Str) :
    AnalysisStep :=
  match fullScript with
  | none => .halt emptyScriptError .IDLE
  | some fs =>
    if jsTrim fs.content = [] then .halt emptyScriptError .IDLE
    else .callCreateBible avatarNames fs.content

/-- JS `hay.indexOf(needle)`: the least index at which `needle` occurs in
`hay` (`some 0` for the empty needle), `none` when there is no occurrence. -/
def findSub : Str → Str → Option Nat
  | [], needle => if needle.isPrefixOf [] then some 0 else none
  | c :: rest, needle =>
    if needle.isPrefixOf (c :: rest) then some 0
    else (findSub rest needle).map (· + 1)

/-- `sceneTextSnippet = tFile.content.split('\n').slice(3).join('\n')`
(src/unnamed/part_000:205). -/
def sceneSnippet (t : TextFile) : Str := joinNl ((splitOnNl t.content).drop 3)

/-- The context localizer (src/unnamed/part_000:207-214): anchor on the first
40 characters of the snippet, search the assembled script, and on a hit at
`idx` return `script.substring(Math.max(0, idx - 1000),
Math.min(script.length, idx + 3000))`; otherwise the empty string.  Nat
subtraction realises the `Math.max(0, ·)` clamp. -/
def localize (script snippet : Str) : Str :=
  match findSub script (snippet.take 40) with
  | some idx =>
    (script.drop (idx - 1000)).take (min script.length (idx + 3000) - (idx - 1000))
  | none => []

/-- JS `value || defaultString` on an optional string: the default when the
value is absent or empty (falsy), the value otherwise. -/
def jsOrElseStr (v : Option Str) (d : Str) : Str :=
  match v with
  | some s => if s = [] then d else s
  | none => d

/-- JS `value || null` on an optional string: `null` when absent or empty. -/
def jsOrNull (v : Option Str) : Option Str :=
  match v with
  | some s => if s = [] then none else some s
  | none => none

/-- The bible excerpt embedded into the identifier prompt:
`characterBible.substring(0, 8000)` (src/services/geminiService.ts:77). -/
def identifyBibleExcerpt (bible : Str) : Str := bible.take 8000

/-- The script excerpt embedded into the bible-builder prompt:
`fullScript.substring(0, 15000)` (src/services/geminiService.ts:19). -/
def bibleScriptExcerpt (script : Str) : Str := script.take 15000

/-- The bible excerpt embedded into the prompt-synthesizer prompt:
`bible.substring(0, 1000)` (src/services/geminiService.ts:127). -/
def synthBibleExcerpt (bible : Str) : Str := bible.take 1000

/-- The localized-context excerpt embedded into the prompt-synthesizer prompt:
`fullScriptSnippet.substring(0, 1500)` (src/services/geminiService.ts:124). -/
def synthContextExcerpt (ctx : Str) : Str := ctx.take 1500

/-- Fixed text of the bible-builder prompt before the avatar filename list
(src/services/geminiService.ts:14-16). -/
def biblePromptPre : Str :=
  "I am producing a high-stakes film. I need a master \"Character Bible\" for consistency.\n    \n    ASSET LIST (AVATARS): ".toList

/-- Fixed text of the bible-builder prompt between the filename list and the
script excerpt (src/services/geminiService.ts:16-19). -/
def biblePromptMid : Str :=
  "\n    \n    FULL SCRIPT EXCERPT:\n    ".toList

/-- Fixed text of the bible-builder prompt after the script excerpt
(src/services/geminiService.ts:20-26). -/
def biblePromptPost : Str :=
  "\n    \n    TASK:\n    1. EXHAUSTIVE ANALYSIS: For every character in the script, define their visual blueprint: skin tone, hair texture, distinct facial features (sharp jaw, hooked nose, etc.), and their signature \"vibe\" (neurotic, imposing, deceptive).\n    2. ASSET MAPPING: Map the provided filenames to these characters. Be logical. If \x27avatar_boss.png\x27 exists, it matches the \x27Boss\x27 character. \n    3. STYLE KEY: Note their unique dialogue patterns to help infer physical performance.\n    \n    Format this as a technical production document for visual effects artists.".toList

/-- The bible-builder prompt (src/services/geminiService.ts:13-26), with
`filenames.join(', ')` and the 15,000-character script excerpt embedded. -/
def createBiblePrompt (filenames : List Str) (fullScript : Str) : Str :=
  biblePromptPre ++ List.intercalate (", ".toList) filenames ++ biblePromptMid ++
    bibleScriptExcerpt fullScript ++ biblePromptPost

/-- Fixed text of the identifier prompt before the scene text
(src/services/geminiService.ts:70-73). -/
def identifyPromptPre : Str :=
  "[CROSS-REFERENCE REQUEST]\n    \n    CONTEXT:\n    SCENE DIALOGUE/ACTION: \"".toList

/-- Fixed identifier-prompt text between scene text and visual analysis
(src/services/geminiService.ts:73-74). -/
def identifyPromptMid1 : Str :=
  "\"\n    VISUAL DATA FROM ROUGH FRAME: \"".toList

/-- Fixed identifier-prompt text between visual analysis and bible excerpt
(src/services/geminiService.ts:74-77). -/
def identifyPromptMid2 : Str :=
  "\"\n    \n    MASTER BIBLE:\n    ".toList

/-- Fixed identifier-prompt text after the bible excerpt: the JSON output
instructions (src/services/geminiService.ts:78-85). -/
def identifyPromptPost : Str :=
  "\n    \n    OUTPUT JSON ONLY:\n    \x7b\n      \"characterName\": \"Who is the primary subject currently on screen?\",\n      \"avatarFilename\": \"Which filename from the Bible represents this person?\",\n      \"otherCharacters\": [\"Who else is in the scene contextually?\"],\n      \"reasoning\": \"Brief technical justification.\"\n    \x7d".toList

/-- The identifier prompt (src/services/geminiService.ts:70-85), embedding the
scene text, visual analysis, and the 8,000-character bible excerpt. -/
def identifyPrompt (sceneText sceneVisualAnalysis characterBible : Str) : Str :=
  identifyPromptPre ++ sceneText ++ identifyPromptMid1 ++ sceneVisualAnalysis ++
    identifyPromptMid2 ++ identifyBibleExcerpt characterBible ++ identifyPromptPost

/-- The structured fields of an identifier response after `JSON.parse`; every
field may be absent (src/services/geminiService.ts:95-99). -/
structure ParsedIdentifyJson where
  characterName : Option Str
  avatarFilename : Option Str
  otherCharacters : Option (List Str)
  deriving DecidableEq, Repr

/-- The identifier's return type (src/services/geminiService.ts:69):
`{ characterName: string; avatarFilename: string | null;
otherCharacters?: string[] }` — `otherCharacters` is optional. -/
structure CharacterMapping where
  characterName : Str
  avatarFilename : Option Str
  otherCharacters : Option (List Str)
  deriving DecidableEq, Repr

/-- Response handling of `identifyConsistentCharacter`
(src/services/geminiService.ts:87-103).  `parsed = some r` is a successful
`JSON.parse` with the fields found in the object; `parsed = none` is the
`catch` branch (parse failure or call failure), which returns
`{ characterName: "Unknown", avatarFilename: null }` with `otherCharacters`
absent.  On success, JS `||` sends absent/empty `characterName` to
`"Unknown"`, absent/empty `avatarFilename` to `null`, and absent
`otherCharacters` to `[]` (arrays are always truthy). -/
def identifyFromResponse (parsed : Option ParsedIdentifyJson) : CharacterMapping :=
  match parsed with
  | some r =>
    { characterName := jsOrElseStr r.characterName ("Unknown".toList)
      avatarFilename := jsOrNull r.avatarFilename
      otherCharacters := some (r.otherCharacters.getD []) }
  | none =>
    { characterName := "Unknown".toList
      avatarFilename := none
      otherCharacters := none }

/-- The caller's normalization `mapping.otherCharacters || []`
(src/unnamed/part_000:226). -/
def callerOtherCharacters (m : CharacterMapping) : List Str :=
  m.otherCharacters.getD []

/-- JS `avatars[key]` on the avatar record, modelled as association-list
lookup (src/unnamed/part_000:221). -/
def lookupAvatar (avatars : List (Str × SourceImage)) (key : Str) :
    Option SourceImage :=
  (avatars.find? (fun p => p.1 = key)).map Prod.snd

/-- `const avatar = mapping.avatarFilename ? avatars[mapping.avatarFilename]
: null` (src/unnamed/part_000:221); an empty filename is falsy.  A lookup miss
yields JS `undefined`, modelled as `none`. -/
def resolveAvatar (avatars : List (Str × SourceImage)) (m : CharacterMapping) :
    Option SourceImage :=
  match m.avatarFilename with
  | some fname => if fname = [] then none else lookupAvatar avatars fname
  | none => none

/-- `avatar?.base64 || null` (src/unnamed/part_000:234). -/
def avatarBase64Arg (avatar : Option SourceImage) : Option Str :=
  match avatar with
  | some a => if a.base64 = [] then none else some a.base64
  | none => none

/-- `avatar?.mimeType || null` (src/unnamed/part_000:234). -/
def avatarMimeArg (avatar : Option SourceImage) : Option Str :=
  match avatar with
  | some a => if a.mimeType = [] then none else some a.mimeType
  | none => none

/-- One part of a multimodal request payload
(src/services/geminiService.ts:161-178). -/
inductive Part where
  | text (s : Str)
  | inlineData (data : Str) (mimeType : Str)
  deriving DecidableEq, Repr

/-- `` `[PROMPT] ${prompt}` `` (src/services/geminiService.ts:165). -/
def promptTagged (prompt : Str) : Str := "[PROMPT] ".toList ++ prompt

/-- The identity-transplant instruction (src/services/geminiService.ts:166). -/
def transplantInstruction : Str :=
  "\n\n[INSTRUCTION] This is an IDENTITY TRANSPLANT. Use the AVATAR image as the *only* source for the person\x27s identity. Use the SCENE image for pose, lighting, and composition. Replace the person in the SCENE with the person from the AVATAR.".toList

/-- The avatar label part (src/services/geminiService.ts:167). -/
def avatarLabel : Str := "\n\nAVATAR (Identity Source):".toList

/-- The scene label part (src/services/geminiService.ts:169). -/
def sceneLabel : Str := "\n\nSCENE (Composition Source):".toList

/-- The no-avatar cinematic re-render instruction
(src/services/geminiService.ts:173-175). -/
def rerenderInstruction (prompt : Str) : Str :=
  "TASK: CINEMATIC RE-RENDER.\n           - Enhance the following image based on this style: ".toList ++
    prompt ++
    "\n           - OUTPUT: A single, high-fidelity, color film frame.".toList

/-- The fallback payload when no avatar is provided
(src/services/geminiService.ts:172-177). -/
def noAvatarParts (prompt sceneBase64 sceneMime : Str) : List Part :=
  [Part.text (rerenderInstruction prompt), Part.inlineData sceneBase64 sceneMime]

/-- The payload construction of `generateRevisedImage`
(src/services/geminiService.ts:161-178): `if (avatarBase64 && avatarMime)` —
both present and non-empty — push prompt text, transplant instruction, avatar
label, avatar image, scene label, scene image, in that order; otherwise the
two-part no-avatar payload. -/
def buildRevisedImageParts (prompt : Str) (avatarBase64 avatarMime : Option Str)
    (sceneBase64 sceneMime : Str) : List Part :=
  match avatarBase64, avatarMime with
  | some a, some m =>
    if a ≠ [] ∧ m ≠ [] then
      [Part.text (promptTagged prompt), Part.text transplantInstruction,
       Part.text avatarLabel, Part.inlineData a m,
       Part.text sceneLabel, Part.inlineData sceneBase64 sceneMime]
    else noAvatarParts prompt sceneBase64 sceneMime
  | some a, none =>
    let _ := a
    noAvatarParts prompt sceneBase64 sceneMime
  | none, some m =>
    let _ := m
    noAvatarParts prompt sceneBase64 sceneMime
  | none, none => noAvatarParts prompt sceneBase64 sceneMime

/-- Fixed synthesizer-prompt text before the plot progression
(src/services/geminiService.ts:119-122). -/
def synthPromptPre : Str :=
  "[CINEMATIC RECONSTRUCTION INSTRUCTION - NANO BANANA OPTIMIZED]\n    \n    STORY ENGINE DATA:\n    - PLOT PROGRESSION: ".toList

/-- Fixed synthesizer-prompt text before the scene text
(src/services/geminiService.ts:123). -/
def synthPromptMid1 : Str := "\n    - CURRENT ACTION/DIALOGUE: ".toList

/-- Fixed synthesizer-prompt text before the localized context excerpt
(src/services/geminiService.ts:124). -/
def synthPromptMid2 : Str := "\n    - FULL CONTEXT: ".toList

/-- Fixed synthesizer-prompt text before the character name
(src/services/geminiService.ts:125-127). -/
def synthPromptMid3 : Str :=
  "\n    \n    VISUAL PARAMETERS:\n    - TARGET IDENTITY: ".toList

/-- Fixed synthesizer-prompt text before the bible excerpt
(src/services/geminiService.ts:127). -/
def synthPromptMid4 : Str := " (Reference Bible traits: ".toList

/-- Fixed synthesizer-prompt text before the visual analysis
(src/services/geminiService.ts:127-128). -/
def synthPromptMid5 : Str := ")\n    - ORIGINAL FRAME COMPOSITION: ".toList

/-- Fixed synthesizer-prompt text before the style directive
(src/services/geminiService.ts:129). -/
def synthPromptMid6 : Str := "\n    - REQUIRED STYLE: ".toList

/-- Fixed synthesizer-prompt task text before the second character-name
mention (src/services/geminiService.ts:131-133). -/
def synthPromptMid7 : Str :=
  "\n    \n    TASK: Write a prompt for a high-end image diffusion model (Gemini 2.5 Image).\n    1. EMOTION INFERENCE: Determine the EXACT micro-expression required (e.g., \"twitching eye in repressed rage\", \"a cold, calculating smirk\").\n    2. DESTRUCTIVE REPLACEMENT: Instruct the model to RECODE the face. Specify the skin texture, the light hitting the specific bone structure of ".toList

/-- Fixed synthesizer-prompt text after the second character-name mention
(src/services/geminiService.ts:133-137). -/
def synthPromptMid8 : Str :=
  ".\n    3. CINEMATOGRAPHY: Force specific lens traits (e.g. \"Anamorphic bokeh, subtle halation, 35mm celluloid grit\").\n    4. TONALITY: Match the \x27action, tone, and emotion\x27 of the script.\n    \n    Output ONLY the final prompt. No conversation.".toList

/-- The prompt-synthesizer prompt (src/services/geminiService.ts:119-137),
embedding the story map (or the default arc), scene text, the
1,500-character context excerpt, the character name, the 1,000-character bible
excerpt, visual analysis, and style.  `otherCharacters` is a parameter of the
source function that the prompt template never uses. -/
def synthPrompt (sceneText characterName : Str) (otherCharacters : List Str)
    (bible style visualAnalysis fullScriptSnippet : Str) (storyMap : Option Str) :
    Str :=
  let _ := otherCharacters
  synthPromptPre ++ jsOrElseStr storyMap ("Standard narrative arc.".toList) ++
    synthPromptMid1 ++ sceneText ++
    synthPromptMid2 ++ synthContextExcerpt fullScriptSnippet ++
    synthPromptMid3 ++ characterName ++
    synthPromptMid4 ++ synthBibleExcerpt bible ++
    synthPromptMid5 ++ visualAnalysis ++
    synthPromptMid6 ++ style ++
    synthPromptMid7 ++ characterName ++
    synthPromptMid8

/-- A concrete host collation for witnesses: case-insensitive lexicographic
comparison, a consistent comparator of the kind `localeCompare` provides in
common locales (where lowercase letters collate adjacent to their uppercase
forms, unlike code-unit order). -/
def demoLocaleCompare (s t : Str) : Int :=
  if s.map Char.toLower < t.map Char.toLower then -1
  else if t.map Char.toLower < s.map Char.toLower then 1
  else 0

/-- Modelled from the spec: the base identifier as described by §4.1, "derive
its \"base\" identifier by stripping the extension (text up to the last `.`)";
a name with no dot is left whole. -/
def specBaseId (name : Str) : Str :=
  if name.contains '.' then
    (((name.reverse).dropWhile (fun c => c ≠ '.')).drop 1).reverse
  else name

/-- A window `take b (drop a l)` is a contiguous substring of `l`. -/
theorem window_isInfix (l : Str) (a b : Nat) : (l.drop a).take b <:+: l := by
  have h1 := List.take_prefix b (l.drop a)
  have h2 := List.drop_suffix a l
  exact h1.isInfix.trans h2.isInfix

/-- When `findSub` reports a hit at `i`, the needle occurs at `i`. -/
theorem findSub_some_hit (hay needle : Str) :
    ∀ i, findSub hay needle = some i → needle.isPrefixOf (hay.drop i) = true := by
  induction hay with
  | nil =>
    intro i h
    simp only [findSub] at h
    split at h
    · cases h
      simpa using ‹needle.isPrefixOf [] = true›
    · cases h
  | cons c rest ih =>
    intro i h
    simp only [findSub] at h
    split at h
    · cases h
      simpa using ‹needle.isPrefixOf (c :: rest) = true›
    · rcases Option.map_eq_some'.mp h with ⟨j, hj, rfl⟩
      simpa [List.drop_succ_cons] using ih j hj

/-- When `findSub` reports a hit at `i`, there is no earlier occurrence:
the hit is the first literal occurrence. -/
theorem findSub_some_least (hay needle : Str) :
    ∀ i, findSub hay needle = some i →
      ∀ j, j < i → needle.isPrefixOf (hay.drop j) = false := by
  induction hay with
  | nil =>
    intro i h j hj
    simp only [findSub] at h
    split at h
    · cases h
      omega
    · cases h
  | cons c rest ih =>
    intro i h j hj
    simp only [findSub] at h
    split at h
    · cases h
      omega
    · rcases Option.map_eq_some'.mp h with ⟨k, hk, rfl⟩
      cases j with
      | zero =>
        simp only [List.drop_zero]
        exact Bool.eq_false_iff.mpr ‹¬needle.isPrefixOf (c :: rest) = true›
      | succ j' =>
        rw [List.drop_succ_cons]
        exact ih k hk j' (by omega)

/-- When `findSub` reports no hit, the needle occurs nowhere. -/
theorem findSub_none_not_occurs (hay needle : Str) :
    findSub hay needle = none →
      ∀ j, needle.isPrefixOf (hay.drop j) = false := by
  induction hay with
  | nil =>
    intro h j
    simp only [findSub] at h
    split at h
    · cases h
    · simp only [List.drop_nil]
      exact Bool.eq_false_iff.mpr ‹¬needle.isPrefixOf [] = true›
  | cons c rest ih =>
    intro h j
    simp only [findSub] at h
    split at h
    · cases h
    · have hr : findSub rest needle = none := by
        cases hfr : findSub rest needle with
        | none => rfl
        | some k => rw [hfr] at h; cases h
      cases j with
      | zero =>
        simp only [List.drop_zero]
        exact Bool.eq_false_iff.mpr ‹¬needle.isPrefixOf (c :: rest) = true›
      | succ j' =>
        rw [List.drop_succ_cons]
        exact ih hr j'

/-- `localize` on a hit at `idx` is the clamped window around `idx`. -/
theorem localize_some_eq (script snippet : Str) (idx : Nat)
    (h : findSub script (snippet.take 40) = some idx) :
    localize script snippet
      = (script.drop (idx - 1000)).take
          (min script.length (idx + 3000) - (idx - 1000)) := by
  simp [localize, h]

/-- `localize` on a miss is the empty string. -/
theorem localize_none_eq (script snippet : Str)
    (h : findSub script (snippet.take 40) = none) :
    localize script snippet = [] := by
  simp [localize, h]

/-- C1: the script assembler iterates frame names in sorted order; a frame
whose matching text asset (name starting with the frame base identifier and
ending in ".txt") has at least 4 lines contributes exactly the line at index
3; a matching asset with fewer than 4 lines contributes nothing; a frame with
no matching text asset is silently skipped; the collected lines are
newline-joined. -/
theorem C1_script_assembly (keys : List Str) (texts : List TextFile) :
    assembleScript keys texts
        = joinNl ((jsSortStrings keys).filterMap (frameLine texts))
    ∧ List.Sorted (· ≤ ·) (jsSortStrings keys)
    ∧ (jsSortStrings keys).Perm keys
    ∧ (∀ k t, findFrameText texts k = some t →
        ((jsBaseId k).isPrefixOf t.name = true
          ∧ (".txt".toList).isSuffixOf t.name = true
          ∧ (4 ≤ (splitOnNl t.content).length →
              frameLine texts k = some ((splitOnNl t.content).getD 3 []))
          ∧ ((splitOnNl t.content).length < 4 → frameLine texts k = none)))
    ∧ (∀ k, findFrameText texts k = none → frameLine texts k = none) := by
  refine ⟨rfl, List.sorted_insertionSort (· ≤ ·) keys,
    List.perm_insertionSort (· ≤ ·) keys, ?_, ?_⟩
  · intro k t h
    have hp : matchesFrameText (jsBaseId k) t = true := List.find?_some h
    rw [matchesFrameText, Bool.and_eq_true] at hp
    refine ⟨hp.1, hp.2, ?_, ?_⟩
    · intro h4
      simp only [frameLine, h]
      rw [if_pos h4]
    · intro h4
      simp only [frameLine, h]
      rw [if_neg (by omega)]
  · intro k h
    simp only [frameLine, h]

/-- C1 witness: a frame `a.png` with matching 4-line text asset `a.txt`
contributes the 4th line. -/
theorem C1_script_assembly_witness :
    frameLine [⟨"a.txt".toList, "l1\nl2\nl3\nl4".toList⟩] ("a.png".toList)
      = some ("l4".toList) := by
  have h := ((C1_script_assembly ["a.png".toList]
      [⟨"a.txt".toList, "l1\nl2\nl3\nl4".toList⟩]).2.2.2.1
      ("a.png".toList) ⟨"a.txt".toList, "l1\nl2\nl3\nl4".toList⟩
      (by decide)).2.2.1 (by decide)
  exact h.trans (by decide)

/-- C2: when the assembled script is empty or consists only of whitespace,
`runAnalysis` halts with the fatal precondition error and resets the stage to
IDLE; the character-bible AI call is never issued. -/
theorem C2_empty_script_halts (fs : TextFile) (avatarNames : List Str)
    (h : ∀ c ∈ fs.content, jsWhitespace c = true) :
    runAnalysis (some fs) avatarNames = .halt emptyScriptError .IDLE
    ∧ ∀ names script,
        runAnalysis (some fs) avatarNames ≠ .callCreateBible names script := by
  have h1 : fs.content.dropWhile jsWhitespace = [] :=
    List.dropWhile_eq_nil_iff.mpr h
  have htrim : jsTrim fs.content = [] := by simp [jsTrim, h1]
  refine ⟨by simp [runAnalysis, htrim], ?_⟩
  intro names script
  simp [runAnalysis, htrim]

/-- C2 witness: an all-whitespace assembled script halts the run. -/
theorem C2_empty_script_halts_witness :
    runAnalysis (some ⟨"hs4000.txt".toList, " \n ".toList⟩) []
      = .halt emptyScriptError .IDLE :=
  (C2_empty_script_halts ⟨"hs4000.txt".toList, " \n ".toList⟩ [] (by decide)).1

/-- C4: context localization anchors on the first 40 characters of the scene
snippet; on the first literal occurrence at `idx` it returns the window
`[idx − 1000, idx + 3000)` clamped to the script bounds — a contiguous
substring of the script, hence no out-of-range access — and on a miss it
returns the empty string. -/
theorem C4_context_localization (script snippet : Str) :
    (∀ idx, findSub script (snippet.take 40) = some idx →
      localize script snippet
          = (script.drop (idx - 1000)).take
              (min script.length (idx + 3000) - (idx - 1000))
        ∧ localize script snippet <:+: script
        ∧ (snippet.take 40).isPrefixOf (script.drop idx) = true
        ∧ (∀ j, j < idx → (snippet.take 40).isPrefixOf (script.drop j) = false))
    ∧ (findSub script (snippet.take 40) = none → localize script snippet = []) := by
  constructor
  · intro idx hidx
    have hloc := localize_some_eq script snippet idx hidx
    refine ⟨hloc, ?_, findSub_some_hit script (snippet.take 40) idx hidx,
      findSub_some_least script (snippet.take 40) idx hidx⟩
    rw [hloc]
    exact window_isInfix script _ _
  · intro h
    exact localize_none_eq script snippet h

/-- C4 witness: in `"abcdef"` the snippet `"cd"` is found at 2 and the clamped
window is the whole script. -/
theorem C4_context_localization_witness :
    localize ("abcdef".toList) ("cd".toList) = "abcdef".toList := by
  have h := ((C4_context_localization ("abcdef".toList) ("cd".toList)).1
      2 (by decide)).1
  exact h.trans (by decide)

/-- C3 is a code bug: the script assembler sorts frame names with the default
code-unit comparator, while the production run sorts the same frames with
`localeCompare`.  For any collation that ranks `"a.png"` before `"B.png"` (as
common locales do, against code-unit order), the processing order differs from
the order in which the script was assembled, violating the stated ordering
invariant. -/
theorem C3_order_divergence (localeCompare : Str → Str → Int)
    (h2 : ¬ localeCompare ("B.png".toList) ("a.png".toList) ≤ 0) :
    (productionOrder localeCompare
        [⟨"B.png".toList, "bb".toList, "image/png".toList⟩,
         ⟨"a.png".toList, "aa".toList, "image/png".toList⟩]).map SourceImage.fileName
        = ["a.png".toList, "B.png".toList]
    ∧ jsSortStrings ["B.png".toList, "a.png".toList]
        = ["B.png".toList, "a.png".toList]
    ∧ (productionOrder localeCompare
        [⟨"B.png".toList, "bb".toList, "image/png".toList⟩,
         ⟨"a.png".toList, "aa".toList, "image/png".toList⟩]).map SourceImage.fileName
        ≠ jsSortStrings ["B.png".toList, "a.png".toList] := by
  have hprod : (productionOrder localeCompare
      [⟨"B.png".toList, "bb".toList, "image/png".toList⟩,
       ⟨"a.png".toList, "aa".toList, "image/png".toList⟩]).map SourceImage.fileName
      = ["a.png".toList, "B.png".toList] := by
    have h2c : ¬ localeCompare ['B', '.', 'p', 'n', 'g'] ['a', '.', 'p', 'n', 'g'] ≤ 0 := h2
    simp [productionOrder, List.insertionSort, List.orderedInsert, h2c]
  have hsort : jsSortStrings ["B.png".toList, "a.png".toList]
      = ["B.png".toList, "a.png".toList] := by decide
  refine ⟨hprod, hsort, ?_⟩
  rw [hprod, hsort]
  decide

/-- C3 witness: under a concrete case-insensitive collation the production
order diverges from the assembly order. -/
theorem C3_order_divergence_witness :
    (productionOrder demoLocaleCompare
        [⟨"B.png".toList, "bb".toList, "image/png".toList⟩,
         ⟨"a.png".toList, "aa".toList, "image/png".toList⟩]).map SourceImage.fileName
      ≠ jsSortStrings ["B.png".toList, "a.png".toList] :=
  (C3_order_divergence demoLocaleCompare (by decide)).2.2

/-- C5 counterexample: for the frame name `a.b.png` the code base identifier
is `a` (text up to the FIRST dot), not `a.b` (text up to the last dot); the
assembler consequently matches the text asset `a.txt`, whose name does not
start with the up-to-last-dot identifier the claim describes. -/
theorem C5_counterexample :
    jsBaseId ("a.b.png".toList) = "a".toList
    ∧ specBaseId ("a.b.png".toList) = "a.b".toList
    ∧ jsBaseId ("a.b.png".toList) ≠ specBaseId ("a.b.png".toList)
    ∧ frameLine [⟨"a.txt".toList, "l1\nl2\nl3\nl4".toList⟩] ("a.b.png".toList)
        = some ("l4".toList)
    ∧ (specBaseId ("a.b.png".toList)).isPrefixOf ("a.txt".toList) = false := by
  decide

/-- C5 amended: the base identifier used to locate matching text assets, both
during script assembly and during per-frame processing, is the text of the
frame name up to the FIRST dot: a dot-free prefix whose removal leaves the
rest of the name starting at the first dot. -/
theorem C5_base_identifier (name : Str) :
    jsBaseId name ++ name.dropWhile (fun c => c ≠ '.') = name
    ∧ (∀ c, c ∈ jsBaseId name → c ≠ '.')
    ∧ (∀ texts, findFrameText texts name
        = texts.find? (fun t =>
            (jsBaseId name).isPrefixOf t.name
              && (".txt".toList).isSuffixOf t.name))
    ∧ (∀ texts img, img.fileName = name →
        perFrameTextLookup texts img = findFrameText texts name) := by
  refine ⟨?_, ?_, ?_, ?_⟩
  · unfold jsBaseId
    exact List.takeWhile_append_dropWhile _ _
  · intro c hc
    simpa using List.mem_takeWhile_imp hc
  · intro texts
    rfl
  · intro texts img h
    rw [perFrameTextLookup, h]
    rfl

/-- C5 amended witness: for the name `x.png` the character `x` lies in the
base identifier and is not a dot. -/
theorem C5_base_identifier_witness :
    'x' ∈ jsBaseId ("x.png".toList) ∧ 'x' ≠ '.' :=
  ⟨by decide, (C5_base_identifier ("x.png".toList)).2.1 'x' (by decide)⟩

/-- C6: the truncation caps are hard limits — the bible excerpt embedded into
the identifier prompt is at most 8,000 characters, the script excerpt embedded
into the bible-builder prompt at most 15,000, and the bible excerpt embedded
into the prompt-synthesizer prompt at most 1,000; each excerpt is literally
what the corresponding prompt embeds. -/
theorem C6_truncation_caps (bible script sceneText visualAnalysis characterName
    style ctx : Str) (otherCharacters : List Str) (avatarNames : List Str)
    (storyMap : Option Str) :
    (identifyBibleExcerpt bible).length ≤ 8000
    ∧ (bibleScriptExcerpt script).length ≤ 15000
    ∧ (synthBibleExcerpt bible).length ≤ 1000
    ∧ identifyBibleExcerpt bible <:+: identifyPrompt sceneText visualAnalysis bible
    ∧ bibleScriptExcerpt script <:+: createBiblePrompt avatarNames script
    ∧ synthBibleExcerpt bible <:+: synthPrompt sceneText characterName
        otherCharacters bible style visualAnalysis ctx storyMap := by
  refine ⟨List.length_take_le _ _, List.length_take_le _ _,
    List.length_take_le _ _, ?_, ?_, ?_⟩
  · exact ⟨identifyPromptPre ++ sceneText ++ identifyPromptMid1 ++
      visualAnalysis ++ identifyPromptMid2, identifyPromptPost,
      by simp [identifyPrompt, List.append_assoc]⟩
  · exact ⟨biblePromptPre ++ List.intercalate (", ".toList) avatarNames ++
      biblePromptMid, biblePromptPost,
      by simp [createBiblePrompt, List.append_assoc]⟩
  · exact ⟨synthPromptPre ++ jsOrElseStr storyMap ("Standard narrative arc.".toList) ++
      synthPromptMid1 ++ sceneText ++ synthPromptMid2 ++
      synthContextExcerpt ctx ++ synthPromptMid3 ++ characterName ++
      synthPromptMid4,
      synthPromptMid5 ++ visualAnalysis ++ synthPromptMid6 ++ style ++
      synthPromptMid7 ++ characterName ++ synthPromptMid8,
      by simp [synthPrompt, List.append_assoc]⟩

/-- C7 counterexample: on parse failure the identifier returns
`{ characterName: "Unknown", avatarFilename: null }` with `otherCharacters`
ABSENT (undefined), not the empty list the claim states. -/
theorem C7_counterexample :
    identifyFromResponse none
        = ⟨"Unknown".toList, none, none⟩
    ∧ (identifyFromResponse none).otherCharacters ≠ some [] := by
  decide

/-- C7 amended: the identifier never throws past its boundary; on parse
failure the mapping falls back to `characterName = "Unknown"`,
`avatarFilename = null` with `otherCharacters` absent (the caller substitutes
`[]` for the absent field before use); when parsing succeeds but fields are
absent, the defaults are `"Unknown"`, `null` and `[]`. -/
theorem C7_identify_fallbacks :
    identifyFromResponse none = ⟨"Unknown".toList, none, none⟩
    ∧ (∀ r : ParsedIdentifyJson, r.characterName = none →
        (identifyFromResponse (some r)).characterName = "Unknown".toList)
    ∧ (∀ r : ParsedIdentifyJson, r.avatarFilename = none →
        (identifyFromResponse (some r)).avatarFilename = none)
    ∧ (∀ r : ParsedIdentifyJson, r.otherCharacters = none →
        (identifyFromResponse (some r)).otherCharacters = some [])
    ∧ callerOtherCharacters (identifyFromResponse none) = [] := by
  refine ⟨rfl, ?_, ?_, ?_, rfl⟩
  · intro r h
    simp [identifyFromResponse, jsOrElseStr, h]
  · intro r h
    simp [identifyFromResponse, jsOrNull, h]
  · intro r h
    simp [identifyFromResponse, h]

/-- C7 amended witness: a parsed object with every field absent maps to the
`"Unknown"` default. -/
theorem C7_identify_fallbacks_witness :
    (identifyFromResponse (some ⟨none, none, none⟩)).characterName
      = "Unknown".toList :=
  C7_identify_fallbacks.2.1 ⟨none, none, none⟩ rfl

/-- C8: when the identifier result has no avatar filename or one that is not
a key of the avatar record, the resolved avatar is null and the image
generator receives null avatar arguments — no missing-key error. -/
theorem C8_unknown_avatar_degrades (avatars : List (Str × SourceImage))
    (m : CharacterMapping)
    (h : ∀ fname, m.avatarFilename = some fname →
        lookupAvatar avatars fname = none) :
    resolveAvatar avatars m = none
    ∧ avatarBase64Arg (resolveAvatar avatars m) = none
    ∧ avatarMimeArg (resolveAvatar avatars m) = none := by
  have hres : resolveAvatar avatars m = none := by
    cases hm : m.avatarFilename with
    | none => simp [resolveAvatar, hm]
    | some fname =>
      by_cases hf : fname = []
      · simp [resolveAvatar, hm, hf]
      · simp [resolveAvatar, hm, hf, h fname hm]
  exact ⟨hres, by rw [hres]; rfl, by rw [hres]; rfl⟩

/-- C8 witness: an avatar filename absent from the avatar set resolves to
null. -/
theorem C8_unknown_avatar_degrades_witness :
    resolveAvatar [] ⟨"Unknown".toList, some ("ghost.png".toList), some []⟩
      = none :=
  (C8_unknown_avatar_degrades []
    ⟨"Unknown".toList, some ("ghost.png".toList), some []⟩
    (fun _ _ => rfl)).1

/-- C9: with an avatar the multimodal payload is exactly prompt text,
identity-transplant instruction, avatar label, avatar image, scene label,
scene image, in that order; without an avatar it is exactly the cinematic
re-render instruction followed by the scene image. -/
theorem C9_payload_part_order (prompt sceneBase64 sceneMime : Str) :
    (∀ a m : Str, a ≠ [] → m ≠ [] →
      buildRevisedImageParts prompt (some a) (some m) sceneBase64 sceneMime
        = [Part.text (promptTagged prompt), Part.text transplantInstruction,
           Part.text avatarLabel, Part.inlineData a m,
           Part.text sceneLabel, Part.inlineData sceneBase64 sceneMime])
    ∧ (∀ om, buildRevisedImageParts prompt none om sceneBase64 sceneMime
        = [Part.text (rerenderInstruction prompt),
           Part.inlineData sceneBase64 sceneMime])
    ∧ (∀ oa, buildRevisedImageParts prompt oa none sceneBase64 sceneMime
        = [Part.text (rerenderInstruction prompt),
           Part.inlineData sceneBase64 sceneMime])
    ∧ (∀ a m : Str, a = [] ∨ m = [] →
        buildRevisedImageParts prompt (some a) (some m) sceneBase64 sceneMime
          = [Part.text (rerenderInstruction prompt),
             Part.inlineData sceneBase64 sceneMime]) := by
  refine ⟨?_, ?_, ?_, ?_⟩
  · intro a m ha hm
    simp only [buildRevisedImageParts]
    rw [if_pos ⟨ha, hm⟩]
  · intro om
    cases om <;> rfl
  · intro oa
    cases oa <;> rfl
  · intro a m h
    simp only [buildRevisedImageParts]
    rw [if_neg (by tauto)]
    rfl

/-- C9 witness: a concrete avatar call produces the six fixed parts in
order. -/
theorem C9_payload_part_order_witness :
    buildRevisedImageParts ("p".toList) (some ("A".toList))
        (some ("image/png".toList)) ("S".toList) ("image/jpeg".toList)
      = [Part.text (promptTagged ("p".toList)), Part.text transplantInstruction,
         Part.text avatarLabel,
         Part.inlineData ("A".toList) ("image/png".toList),
         Part.text sceneLabel,
         Part.inlineData ("S".toList) ("image/jpeg".toList)] :=
  (C9_payload_part_order ("p".toList) ("S".toList) ("image/jpeg".toList)).1
    ("A".toList) ("image/png".toList) (by decide) (by decide)

/-- C10: the localized script context embedded into the synthesizer prompt is
truncated to its first 1,500 characters — and only that excerpt appears in
the prompt — even though the context localizer can return a window of up to
4,000 characters. -/
theorem C10_context_embedding_cap (sceneText characterName : Str)
    (otherCharacters : List Str) (bible style visualAnalysis ctx : Str)
    (storyMap : Option Str) :
    (synthContextExcerpt ctx).length ≤ 1500
    ∧ synthContextExcerpt ctx = ctx.take 1500
    ∧ synthContextExcerpt ctx <:+: synthPrompt sceneText characterName
        otherCharacters bible style visualAnalysis ctx storyMap
    ∧ (∀ script snippet, (localize script snippet).length ≤ 4000) := by
  refine ⟨List.length_take_le _ _, rfl, ?_, ?_⟩
  · exact ⟨synthPromptPre ++ jsOrElseStr storyMap ("Standard narrative arc.".toList) ++
      synthPromptMid1 ++ sceneText ++ synthPromptMid2,
      synthPromptMid3 ++ characterName ++ synthPromptMid4 ++
      synthBibleExcerpt bible ++ synthPromptMid5 ++ visualAnalysis ++
      synthPromptMid6 ++ style ++ synthPromptMid7 ++ characterName ++
      synthPromptMid8,
      by simp [synthPrompt, List.append_assoc]⟩
  · intro script snippet
    cases hf : findSub script (snippet.take 40) with
    | none =>
      rw [localize_none_eq script snippet hf]
      simp
    | some idx =>
      rw [localize_some_eq script snippet idx hf]
      refine le_trans (List.length_take_le _ _) ?_
      omega

end BS14
